import Mathlib

/-!
Verification of the command/response correlation core of the
`esn-cloud-cmd-ms` service (`src/app/api/utils.py`, `src/app/api/routes.py`).

The backing Redis store is modelled as a partial map from string keys
(command UUIDs) to entries.  An entry carries the serialized record value
together with the optional expiry that the Redis SET command can attach
(`EX` argument); a plain SET, as used by the source, attaches none.
Serialization (`json.dumps` / `json.loads`) is a bijection external to the
scope, so records are kept abstract as a type parameter `α`.
-/

/-- One Redis entry: the stored value and the optional expiry (in time
units) that a SET command may attach; `none` means the entry persists
until explicitly deleted. -/
structure RedisEntry (α : Type) where
  val : α
  expiry : Option Nat
deriving DecidableEq, Repr

/-- The Redis keyspace: a partial map from string keys to entries. -/
def RedisStore (α : Type) := String → Option (RedisEntry α)

/-- Redis SET: store `v` under `key` with optional expiry `ex`,
overwriting whatever entry was there. -/
def redisSet {α : Type} (st : RedisStore α) (key : String) (v : α)
    (ex : Option Nat) : RedisStore α :=
  fun k => if k = key then some ⟨v, ex⟩ else st k

/-- Redis GET: read the value stored under `key`, if any.  GET does not
mutate the store. -/
def redisGet {α : Type} (st : RedisStore α) (key : String) : Option α :=
  (st key).map RedisEntry.val

/-- Redis DEL: remove the entry under `key`. -/
def redisDelete {α : Type} (st : RedisStore α) (key : String) : RedisStore α :=
  fun k => if k = key then none else st k

/-- Passage of `t` time units: every entry whose expiry is `some e` with
`e ≤ t` is evicted; entries without an expiry persist. -/
def expireAfter {α : Type} (t : Nat) (st : RedisStore α) : RedisStore α :=
  fun k =>
    match st k with
    | some entry =>
      match entry.expiry with
      | some e => if e ≤ t then none else some entry
      | none => some entry
    | none => none

/-- Translation of `store_response_in_redis` (src/app/api/utils.py, lines
27-28): `redis_client.set(command_uuid, json.dumps(response))` — a plain
SET with no expiry argument. -/
def store_response_in_redis {α : Type} (st : RedisStore α)
    (command_uuid : String) (response : α) : RedisStore α :=
  redisSet st command_uuid response none

/-- Translation of `retrieve_response_from_redis` (src/app/api/utils.py,
lines 30-35): GET the key; if a value is present, DELETE the key and
return the value, otherwise return `None`.  The function returns the
result together with the store after the call.  The GET and the DELETE
are two separate Redis commands in the source; the sequential semantics
of the single call is captured here, and the interleaving of the two
commands under concurrency is modelled separately by `consumerStep`. -/
def retrieve_response_from_redis {α : Type} (st : RedisStore α)
    (command_uuid : String) : Option α × RedisStore α :=
  match redisGet st command_uuid with
  | some r => (some r, redisDelete st command_uuid)
  | none => (none, st)

/-- The consume endpoints iterate over the requested UUIDs with an
accumulator: `responses = []`, then for each UUID consume it from Redis,
`continue` on `None`, and append the record otherwise
(src/app/api/routes.py, lines 298-308). -/
def retrieve_responses_loop {α : Type} (st : RedisStore α) (acc : List α) :
    List String → List α × RedisStore α
  | [] => (acc, st)
  | uuid :: rest =>
    match retrieve_response_from_redis st uuid with
    | (none, st1) => retrieve_responses_loop st1 acc rest
    | (some r, st1) => retrieve_responses_loop st1 (acc ++ [r]) rest

/-- Translation of `retrieve_get_sensor_state_response`
(src/app/api/routes.py, lines 290-308).  Parsing each record back into
the kind-specific schema is external validation and is kept abstract. -/
def retrieve_get_sensor_state_response {α : Type} (command_uuids : List String)
    (st : RedisStore α) : List α × RedisStore α :=
  retrieve_responses_loop st [] command_uuids

/-- Translation of `retrieve_get_inference_layer_response`
(src/app/api/routes.py, lines 331-349); its body is identical to the
sensor-state retrieval endpoint up to the kind-specific schema. -/
def retrieve_get_inference_layer_response {α : Type} (command_uuids : List String)
    (st : RedisStore α) : List α × RedisStore α :=
  retrieve_responses_loop st [] command_uuids

/-- Translation of `retrieve_get_sensor_config_response`
(src/app/api/routes.py, lines 372-390); same body up to the schema. -/
def retrieve_get_sensor_config_response {α : Type} (command_uuids : List String)
    (st : RedisStore α) : List α × RedisStore α :=
  retrieve_responses_loop st [] command_uuids

/-- Modelled from the spec (section 4.2): `consumeMany(ids)` applies
`consume` to each identifier independently, in the given order, skipping
identifiers with no record.  Used as the specification side of the
refinement claim about the batched retrieval endpoints. -/
def consumeMany_spec {α : Type} (ids : List String) (st : RedisStore α) :
    List α × RedisStore α :=
  match ids with
  | [] => ([], st)
  | id :: rest =>
    match retrieve_response_from_redis st id with
    | (r, st1) =>
      match consumeMany_spec rest st1 with
      | (rs, st2) => (r.toList ++ rs, st2)

/-- A small concrete store used to instantiate universally quantified
results: records "ra" and "rb" stored under "a" and "b". -/
def sampleStore : RedisStore String :=
  fun k =>
    if k = "a" then some ⟨"ra", none⟩
    else if k = "b" then some ⟨"rb", none⟩
    else none

/-!
Interleaving model for concurrent consumers.  The body of
`retrieve_response_from_redis` issues two separate Redis commands: a GET
and then, when a value was returned, a DELETE.  Under concurrent
execution the commands of two callers interleave; each caller is a small
state machine over these phases.
-/

/-- Phase of one in-flight `retrieve_response_from_redis` call:
before the GET, after the GET with the value it returned, or finished
with its result. -/
inductive ConsumerPhase (α : Type) where
  | start : ConsumerPhase α
  | gotten : Option α → ConsumerPhase α
  | done : Option α → ConsumerPhase α
deriving DecidableEq, Repr

/-- One atomic step of a consumer of `uuid`: the GET (which reads and does
not mutate), then — exactly as in the source — a DELETE when the GET
returned a value, or immediate completion with `none` when it did not. -/
def consumerStep {α : Type} (uuid : String) (st : RedisStore α) :
    ConsumerPhase α → RedisStore α × ConsumerPhase α
  | .start => (st, .gotten (redisGet st uuid))
  | .gotten (some r) => (redisDelete st uuid, .done (some r))
  | .gotten none => (st, .done none)
  | .done r => (st, .done r)

/-- Shared store plus the phases of two concurrent consumers. -/
structure TwoConsumerState (α : Type) where
  store : RedisStore α
  p1 : ConsumerPhase α
  p2 : ConsumerPhase α

/-- Run a schedule: `true` steps the first consumer, `false` the second. -/
def runSchedule {α : Type} (uuid : String) (s : TwoConsumerState α) :
    List Bool → TwoConsumerState α
  | [] => s
  | b :: rest =>
    if b then
      match consumerStep uuid s.store s.p1 with
      | (st1, q1) => runSchedule uuid ⟨st1, q1, s.p2⟩ rest
    else
      match consumerStep uuid s.store s.p2 with
      | (st2, q2) => runSchedule uuid ⟨st2, s.p1, q2⟩ rest

/-!
Command Relay endpoints.  Each command endpoint forwards the command to
the device and inspects the synchronous acknowledgement; an unexpected
status code raises `HTTPException(status_code=ack.status_code,
detail=ack.json())`.  The acknowledgement is modelled by its status code
and parsed JSON body.
-/

/-- Synchronous HTTP acknowledgement from the device: the status code and
the parsed JSON body. -/
structure HttpResponse (β : Type) where
  status_code : Nat
  body : β
deriving DecidableEq, Repr

/-- Outcome of a command endpoint: the successful return value, or the
HTTPException raised, carrying a status code and a detail body. -/
inductive EndpointResult (β : Type) (γ : Type) where
  | ok : γ → EndpointResult β γ
  | httpError : Nat → β → EndpointResult β γ
deriving DecidableEq, Repr

/-- A parsed JSON object: an association of field names to values. -/
def JsonObject (α : Type) := List (String × α)

/-- Python dict `.get(key)`: the value under the key, or `None` when the
field is absent. -/
def jsonGet {α : Type} (o : JsonObject α) (k : String) : Option α :=
  (List.find? (fun p => p.1 == k) o).map Prod.snd

/-- Translation of `get_available_sensors` (src/app/api/routes.py, lines
15-31): when the device acknowledgement status is not 200 OK, raise an
HTTPException carrying the device's status code and its JSON body;
otherwise return the device list parsed from the body (per-device schema
validation is external, so the parsed body is kept abstract). -/
def get_available_sensors {β : Type} (ack : HttpResponse β) :
    EndpointResult β β :=
  if ack.status_code ≠ 200 then
    EndpointResult.httpError ack.status_code ack.body
  else
    EndpointResult.ok ack.body

/-- Success body of a GET-style sensor command endpoint: the confirmation
message together with the `command_uuids` value read from the
acknowledgement body via dict `.get` (hence optional). -/
structure GetCommandResult (α : Type) where
  message : String
  command_uuids : Option α
deriving DecidableEq, Repr

/-- Translation of `command_get_sensor_state` (src/app/api/routes.py,
lines 129-148): on a non-202 acknowledgement raise an HTTPException with
the device's status code and body; otherwise answer the confirmation
message and `cmd_response.json().get("command_uuids")`. -/
def command_get_sensor_state {α : Type} (ack : HttpResponse (JsonObject α)) :
    EndpointResult (JsonObject α) (GetCommandResult α) :=
  if ack.status_code ≠ 202 then
    EndpointResult.httpError ack.status_code ack.body
  else
    EndpointResult.ok
      ⟨"GET Sensor State Command Sent to Gateway API",
        jsonGet ack.body "command_uuids"⟩

/-- Translation of `command_get_inference_layer` (src/app/api/routes.py,
lines 168-187); same shape as the sensor-state command endpoint. -/
def command_get_inference_layer {α : Type}
    (ack : HttpResponse (JsonObject α)) :
    EndpointResult (JsonObject α) (GetCommandResult α) :=
  if ack.status_code ≠ 202 then
    EndpointResult.httpError ack.status_code ack.body
  else
    EndpointResult.ok
      ⟨"GET Inference Layer Command Sent to Gateway API",
        jsonGet ack.body "command_uuids"⟩

/-- Translation of `command_get_sensor_config` (src/app/api/routes.py,
lines 207-226); same shape as the sensor-state command endpoint. -/
def command_get_sensor_config {α : Type}
    (ack : HttpResponse (JsonObject α)) :
    EndpointResult (JsonObject α) (GetCommandResult α) :=
  if ack.status_code ≠ 202 then
    EndpointResult.httpError ack.status_code ack.body
  else
    EndpointResult.ok
      ⟨"GET Sensor Configuration Command Sent to Gateway API",
        jsonGet ack.body "command_uuids"⟩

-- Basic lemmas about the store model.

theorem redisSet_same {α : Type} (st : RedisStore α) (key : String) (v : α)
    (ex : Option Nat) : redisSet st key v ex key = some ⟨v, ex⟩ := by
  simp [redisSet]

theorem redisSet_other {α : Type} (st : RedisStore α) (key k : String) (v : α)
    (ex : Option Nat) (h : k ≠ key) : redisSet st key v ex k = st k := by
  simp [redisSet, h]

theorem redisDelete_same {α : Type} (st : RedisStore α) (key : String) :
    redisDelete st key key = none := by
  simp [redisDelete]

theorem redisDelete_other {α : Type} (st : RedisStore α) (key k : String)
    (h : k ≠ key) : redisDelete st key k = st k := by
  simp [redisDelete, h]

/-- The endpoint's accumulator loop computes exactly the in-order
sequential consumption described by `consumeMany_spec`, with the
accumulator prepended. -/
theorem retrieve_responses_loop_eq {α : Type} (ids : List String) :
    ∀ (st : RedisStore α) (acc : List α),
    retrieve_responses_loop st acc ids
      = (acc ++ (consumeMany_spec ids st).1, (consumeMany_spec ids st).2) := by
  induction ids with
  | nil =>
    intro st acc
    simp [retrieve_responses_loop, consumeMany_spec]
  | cons id rest ih =>
    intro st acc
    rcases h : retrieve_response_from_redis st id with ⟨r, st1⟩
    cases r with
    | none =>
      simp [retrieve_responses_loop, consumeMany_spec, h, ih st1 acc]
    | some v =>
      simp [retrieve_responses_loop, consumeMany_spec, h, ih st1 (acc ++ [v])]

/-- Consuming a present record returns it and deletes the key. -/
theorem retrieve_of_present {α : Type} (st : RedisStore α) (id : String)
    (e : RedisEntry α) (h : st id = some e) :
    retrieve_response_from_redis st id = (some e.val, redisDelete st id) := by
  simp [retrieve_response_from_redis, redisGet, h]

/-- Consuming an absent key returns nothing and leaves the store as is. -/
theorem retrieve_of_absent {α : Type} (st : RedisStore α) (id : String)
    (h : st id = none) :
    retrieve_response_from_redis st id = (none, st) := by
  simp [retrieve_response_from_redis, redisGet, h]

/-- Sequentially consuming a list of identifiers that are all absent
yields no records and leaves the store unchanged. -/
theorem consumeMany_spec_absent {α : Type} (ids : List String)
    (st : RedisStore α) (h : ∀ i ∈ ids, st i = none) :
    consumeMany_spec ids st = ([], st) := by
  induction ids with
  | nil => simp [consumeMany_spec]
  | cons id rest ih =>
    have hid : st id = none := h id (List.mem_cons_self id rest)
    have hrest : ∀ i ∈ rest, st i = none :=
      fun i hi => h i (List.mem_cons_of_mem id hi)
    simp [consumeMany_spec, retrieve_of_absent st id hid, ih hrest]

/-- Consuming a list of identifiers leaves every key outside the list
untouched. -/
theorem consumeMany_spec_frame {α : Type} (ids : List String) :
    ∀ (st : RedisStore α) (id : String), id ∉ ids →
    (consumeMany_spec ids st).2 id = st id := by
  induction ids with
  | nil =>
    intro st id _
    simp [consumeMany_spec]
  | cons i rest ih =>
    intro st id h
    have hne : id ≠ i := by
      rintro rfl
      exact h (List.mem_cons_self _ _)
    have hrest : id ∉ rest := fun hm => h (List.mem_cons_of_mem _ hm)
    rcases hr : retrieve_response_from_redis st i with ⟨r, st1⟩
    have hst1 : st1 id = st id := by
      cases hsi : st i with
      | none =>
        rw [retrieve_of_absent st i hsi] at hr
        cases hr
        rfl
      | some e =>
        rw [retrieve_of_present st i e hsi] at hr
        injection hr with h1 h2
        subst h2
        exact redisDelete_other st i id hne
    simp [consumeMany_spec, hr]
    rw [ih st1 id hrest, hst1]

/-- Sequential consumption distributes over list append: first the prefix
is consumed, then the suffix from the resulting store. -/
theorem consumeMany_spec_append {α : Type} (xs : List String) :
    ∀ (ys : List String) (st : RedisStore α),
    consumeMany_spec (xs ++ ys) st
      = ((consumeMany_spec xs st).1
          ++ (consumeMany_spec ys (consumeMany_spec xs st).2).1,
         (consumeMany_spec ys (consumeMany_spec xs st).2).2) := by
  induction xs with
  | nil =>
    intro ys st
    simp [consumeMany_spec]
  | cons i rest ih =>
    intro ys st
    rcases hr : retrieve_response_from_redis st i with ⟨r, st1⟩
    simp [consumeMany_spec, hr, ih ys st1, List.append_assoc]

/-- Occurrences of an absent identifier in the consumption list are pure
no-ops: they may be filtered away without changing result or store. -/
theorem consumeMany_spec_filter_absent {α : Type} (ys : List String) :
    ∀ (st : RedisStore α) (id : String), st id = none →
    consumeMany_spec ys st
      = consumeMany_spec (ys.filter (fun y => y != id)) st := by
  induction ys with
  | nil =>
    intro st id _
    rfl
  | cons y rest ih =>
    intro st id h
    by_cases hy : y = id
    · subst hy
      have hf : (y :: rest).filter (fun z => z != y)
          = rest.filter (fun z => z != y) := by simp
      have hstep : consumeMany_spec (y :: rest) st = consumeMany_spec rest st := by
        simp [consumeMany_spec, retrieve_of_absent st y h]
      rw [hf, hstep]
      exact ih st y h
    · have hf : (y :: rest).filter (fun z => z != id)
          = y :: rest.filter (fun z => z != id) := by
        simp [List.filter_cons, hy]
      rcases hr : retrieve_response_from_redis st y with ⟨r, st1⟩
      have hst1 : st1 id = none := by
        cases hsy : st y with
        | none =>
          rw [retrieve_of_absent st y hsy] at hr
          cases hr
          exact h
        | some e =>
          rw [retrieve_of_present st y e hsy] at hr
          injection hr with h1 h2
          subst h2
          rw [redisDelete_other st y id (fun he => hy he.symm)]
          exact h
      rw [hf]
      simp [consumeMany_spec, hr, ih st1 id hst1]

/-- When the requested identifiers are pairwise distinct, sequential
consumption returns, in input order, exactly the records present in the
initial store. -/
theorem consumeMany_spec_nodup {α : Type} (ids : List String) :
    ∀ st : RedisStore α, ids.Nodup →
    (consumeMany_spec ids st).1 = ids.filterMap (fun i => redisGet st i) := by
  induction ids with
  | nil =>
    intro st _
    simp [consumeMany_spec]
  | cons i rest ih =>
    intro st h
    have hi : i ∉ rest := (List.nodup_cons.mp h).1
    have hrest : rest.Nodup := (List.nodup_cons.mp h).2
    cases hsi : st i with
    | none =>
      have hgi : redisGet st i = none := by simp [redisGet, hsi]
      simp [consumeMany_spec, retrieve_of_absent st i hsi,
            List.filterMap_cons, hgi, ih st hrest]
    | some e =>
      have hgi : redisGet st i = some e.val := by simp [redisGet, hsi]
      simp [consumeMany_spec, retrieve_of_present st i e hsi,
            List.filterMap_cons, hgi]
      rw [ih (redisDelete st i) hrest]
      apply List.filterMap_congr
      intro x hx
      have hxi : x ≠ i := fun hxe => hi (hxe ▸ hx)
      simp [redisGet, redisDelete_other st i x hxi]

/-- C2: for every store state, identifier and record, `consume(id)` right
after `store(id, r)` returns `r`, and a second `consume(id)` right after
that returns nothing: once read, the record is unreadable again. -/
theorem consume_after_store_once {α : Type} (st : RedisStore α)
    (id : String) (r : α) :
    (retrieve_response_from_redis (store_response_in_redis st id r) id).1
        = some r
    ∧ (retrieve_response_from_redis
        (retrieve_response_from_redis (store_response_in_redis st id r) id).2
        id).1 = none := by
  have h1 : store_response_in_redis st id r id = some ⟨r, none⟩ :=
    redisSet_same st id r none
  have h2 := retrieve_of_present (store_response_in_redis st id r) id ⟨r, none⟩ h1
  refine ⟨by rw [h2], ?_⟩
  rw [h2]
  have h3 : redisDelete (store_response_in_redis st id r) id id = none :=
    redisDelete_same _ id
  rw [retrieve_of_absent _ id h3]

/-- C5: storing twice under the same identifier before any consumption is
last-write-wins: the second store entirely replaces the first (the double
store equals a single store of the second record, with no uniqueness
check), and the subsequently consumed record is the second one. -/
theorem store_last_write_wins {α : Type} (st : RedisStore α) (id : String)
    (r1 r2 : α) :
    store_response_in_redis (store_response_in_redis st id r1) id r2
        = store_response_in_redis st id r2
    ∧ (retrieve_response_from_redis
        (store_response_in_redis (store_response_in_redis st id r1) id r2)
        id).1 = some r2 := by
  have habs : store_response_in_redis (store_response_in_redis st id r1) id r2
      = store_response_in_redis st id r2 := by
    funext k
    by_cases hk : k = id
    · subst hk
      simp [store_response_in_redis, redisSet]
    · simp [store_response_in_redis, redisSet, hk]
  refine ⟨habs, ?_⟩
  rw [habs]
  have h1 : store_response_in_redis st id r2 id = some ⟨r2, none⟩ :=
    redisSet_same st id r2 none
  rw [retrieve_of_present _ id ⟨r2, none⟩ h1]

/-- C7: operations on distinct identifiers do not interfere: for `a ≠ b`,
storing under `a` leaves the entry under `b` untouched, consuming `b`
leaves the entry under `a` untouched, and the result of consuming `b` is
unaffected by a prior store under `a`. -/
theorem store_consume_frame {α : Type} (st : RedisStore α) (a b : String)
    (r : α) (hab : a ≠ b) :
    store_response_in_redis st a r b = st b
    ∧ (retrieve_response_from_redis st b).2 a = st a
    ∧ (retrieve_response_from_redis (store_response_in_redis st a r) b).1
        = (retrieve_response_from_redis st b).1 := by
  have hb : store_response_in_redis st a r b = st b :=
    redisSet_other st a b r none (fun h => hab h.symm)
  refine ⟨hb, ?_, ?_⟩
  · cases hsb : st b with
    | none =>
      rw [retrieve_of_absent st b hsb]
    | some e =>
      rw [retrieve_of_present st b e hsb]
      exact redisDelete_other st b a hab
  · cases hsb : st b with
    | none =>
      rw [retrieve_of_absent st b hsb]
      have : store_response_in_redis st a r b = none := hb.trans hsb
      rw [retrieve_of_absent _ b this]
    | some e =>
      rw [retrieve_of_present st b e hsb]
      have : store_response_in_redis st a r b = some e := hb.trans hsb
      rw [retrieve_of_present _ b e this]

/-- C7 witness: the frame property at the concrete identifiers "a" and "b"
with a record stored under each. -/
theorem store_consume_frame_witness :
    store_response_in_redis
        (fun k => if k = "b" then some ⟨"rb", none⟩ else none) "a" "ra" "b"
      = (fun k => if k = "b" then some (⟨"rb", none⟩ : RedisEntry String)
          else none) "b"
    ∧ (retrieve_response_from_redis
        (fun k => if k = "b" then some ⟨"rb", none⟩ else none) "b").2 "a"
      = (fun k => if k = "b" then some (⟨"rb", none⟩ : RedisEntry String)
          else none) "a"
    ∧ (retrieve_response_from_redis (store_response_in_redis
        (fun k => if k = "b" then some ⟨"rb", none⟩ else none) "a" "ra") "b").1
      = (retrieve_response_from_redis
        (fun k => if k = "b" then some ⟨"rb", none⟩ else none) "b").1 :=
  store_consume_frame _ "a" "b" "ra" (by decide)

/-- C4 counterexample: the source `store_response_in_redis` issues a plain
SET with no expiry argument, so at the concrete input of an empty store,
identifier "u1" and record "r", the stored entry carries `expiry = none`:
no TTL bound is applied to the stored record. -/
theorem store_sets_no_ttl_counterexample :
    store_response_in_redis (fun _ => (none : Option (RedisEntry String)))
      "u1" "r" "u1" = some ⟨"r", none⟩ := by
  simp [store_response_in_redis, redisSet]

/-- C4 amended: every stored record is evicted immediately upon successful
retrieval, but `store` applies no TTL: the stored entry has no expiry, and
a record that is never retrieved survives the passage of any amount of
time, persisting indefinitely. -/
theorem store_no_ttl_evict_on_retrieval {α : Type} (st : RedisStore α)
    (id : String) (r : α) (t : Nat) :
    (retrieve_response_from_redis (store_response_in_redis st id r) id).1
        = some r
    ∧ (retrieve_response_from_redis (store_response_in_redis st id r) id).2 id
        = none
    ∧ store_response_in_redis st id r id = some ⟨r, none⟩
    ∧ expireAfter t (store_response_in_redis st id r) id = some ⟨r, none⟩ := by
  have h1 : store_response_in_redis st id r id = some ⟨r, none⟩ :=
    redisSet_same st id r none
  have h2 := retrieve_of_present (store_response_in_redis st id r) id ⟨r, none⟩ h1
  refine ⟨by rw [h2], ?_, h1, ?_⟩
  · rw [h2]
    exact redisDelete_same _ id
  · simp [expireAfter, h1]

/-- C3: the batched retrieval endpoint coincides with the specification's
`consumeMany`: it consumes each identifier independently in the given
order and omits identifiers with no stored record; it is a total function
(never an error), and on a store with no records it returns the empty
sequence. -/
theorem retrieve_endpoint_consumeMany {α : Type} (ids : List String)
    (st : RedisStore α) :
    retrieve_get_sensor_state_response ids st = consumeMany_spec ids st
    ∧ (retrieve_get_sensor_state_response ids (fun _ => none)).1
        = ([] : List α) := by
  constructor
  · simp [retrieve_get_sensor_state_response, retrieve_responses_loop_eq]
  · simp [retrieve_get_sensor_state_response, retrieve_responses_loop_eq,
      consumeMany_spec_absent ids (fun _ => none) (fun _ _ => rfl)]

/-- C8: the batched retrieval endpoints preserve input order.  For any
split of the input, the records of the prefix precede the records of the
suffix in the output; and when the requested identifiers are pairwise
distinct, the output is exactly the `filterMap` of the input over the
initial store, so each returned record sits in the relative position of
its identifier in the input sequence. -/
theorem retrieve_endpoint_order_preserving {α : Type}
    (xs ys ids : List String) (st : RedisStore α) (h : ids.Nodup) :
    (retrieve_get_sensor_state_response (xs ++ ys) st).1
        = (retrieve_get_sensor_state_response xs st).1
          ++ (retrieve_get_sensor_state_response ys
              (retrieve_get_sensor_state_response xs st).2).1
    ∧ (retrieve_get_sensor_state_response ids st).1
        = ids.filterMap (fun i => redisGet st i)
    ∧ (retrieve_get_inference_layer_response ids st).1
        = ids.filterMap (fun i => redisGet st i) := by
  have hloop : ∀ (l : List String) (s : RedisStore α),
      retrieve_get_sensor_state_response l s = consumeMany_spec l s := by
    intro l s
    simp [retrieve_get_sensor_state_response, retrieve_responses_loop_eq]
  have hn := consumeMany_spec_nodup ids st h
  refine ⟨?_, ?_, ?_⟩
  · rw [hloop, hloop, hloop, consumeMany_spec_append xs ys st]
  · rw [hloop, hn]
  · simp [retrieve_get_inference_layer_response, retrieve_responses_loop_eq, hn]

/-- C8 witness: the order-preservation property at the concrete inputs
["b"] ++ ["a"] and the distinct sequence ["a", "b"] on the sample
store. -/
theorem retrieve_endpoint_order_preserving_witness :
    (retrieve_get_sensor_state_response (["b"] ++ ["a"]) sampleStore).1
        = (retrieve_get_sensor_state_response ["b"] sampleStore).1
          ++ (retrieve_get_sensor_state_response ["a"]
              (retrieve_get_sensor_state_response ["b"] sampleStore).2).1
    ∧ (retrieve_get_sensor_state_response ["a", "b"] sampleStore).1
        = ["a", "b"].filterMap (fun i => redisGet sampleStore i)
    ∧ (retrieve_get_inference_layer_response ["a", "b"] sampleStore).1
        = ["a", "b"].filterMap (fun i => redisGet sampleStore i) :=
  retrieve_endpoint_order_preserving ["b"] ["a"] ["a", "b"] sampleStore
    (by decide)

/-- C9: when the input sequence contains an identifier with a stored
record more than once, the record is returned exactly once, at the first
occurrence; every later occurrence observes absence and is skipped, so
the output equals the prefix's records, then the record, then the records
of the suffix with all repeated occurrences of the identifier removed. -/
theorem retrieve_endpoint_duplicate_once {α : Type} (st : RedisStore α)
    (id : String) (e : RedisEntry α) (xs ys : List String)
    (hpresent : st id = some e) (hfirst : id ∉ xs) :
    (retrieve_get_sensor_state_response (xs ++ id :: ys) st).1
      = (retrieve_get_sensor_state_response xs st).1
        ++ e.val :: (retrieve_get_sensor_state_response
            (ys.filter (fun y => y != id))
            (redisDelete (retrieve_get_sensor_state_response xs st).2 id)).1 := by
  have hloop : ∀ (l : List String) (s : RedisStore α),
      retrieve_get_sensor_state_response l s = consumeMany_spec l s := by
    intro l s
    simp [retrieve_get_sensor_state_response, retrieve_responses_loop_eq]
  rw [hloop, hloop, hloop]
  have hst1 : (consumeMany_spec xs st).2 id = some e := by
    rw [consumeMany_spec_frame xs st id hfirst]
    exact hpresent
  rw [consumeMany_spec_append xs (id :: ys) st]
  have hdel : redisDelete (consumeMany_spec xs st).2 id id = none :=
    redisDelete_same _ id
  simp [consumeMany_spec, retrieve_of_present _ id e hst1,
    consumeMany_spec_filter_absent ys (redisDelete (consumeMany_spec xs st).2 id)
      id hdel]

/-- C9 witness: on the sample store, retrieving ["b", "a", "a", "c"]
returns "a"'s record exactly once, at its first occurrence. -/
theorem retrieve_endpoint_duplicate_once_witness :
    (retrieve_get_sensor_state_response (["b"] ++ "a" :: ["a", "c"])
        sampleStore).1
      = (retrieve_get_sensor_state_response ["b"] sampleStore).1
        ++ "ra" :: (retrieve_get_sensor_state_response
            (["a", "c"].filter (fun y => y != "a"))
            (redisDelete
              (retrieve_get_sensor_state_response ["b"] sampleStore).2 "a")).1 :=
  retrieve_endpoint_duplicate_once sampleStore "a" ⟨"ra", none⟩ ["b"] ["a", "c"]
    (by simp [sampleStore]) (by decide)

/-- C1: the read-then-delete inside `retrieve_response_from_redis` is NOT
atomic: two concurrent consumers of the freshly stored identifier "u1",
interleaved as GET by the first, GET by the second, DELETE by the first,
DELETE by the second, BOTH finish holding the stored record "r" — the
claim that exactly one caller obtains the record while the other observes
absence fails on this interleaving of the source's two Redis commands. -/
theorem concurrent_consume_both_succeed :
    (runSchedule "u1"
      ⟨fun k => if k = "u1" then some ⟨"r", none⟩ else none,
        ConsumerPhase.start, ConsumerPhase.start⟩
      [true, false, true, false]).p1 = ConsumerPhase.done (some "r")
    ∧ (runSchedule "u1"
      ⟨fun k => if k = "u1" then some ⟨"r", none⟩ else none,
        ConsumerPhase.start, ConsumerPhase.start⟩
      [true, false, true, false]).p2 = ConsumerPhase.done (some "r") := by
  constructor <;> rfl

/-- C6: a device acknowledgement whose status code is not the one expected
for the command kind (200 OK for the available-sensors command, 202
Accepted for the GET sensor state command) makes the endpoint fail and
propagate exactly the device's status code and body, unmodified. -/
theorem unexpected_status_propagated {β α : Type}
    (ack : HttpResponse β) (ack2 : HttpResponse (JsonObject α))
    (h1 : ack.status_code ≠ 200) (h2 : ack2.status_code ≠ 202) :
    get_available_sensors ack
        = EndpointResult.httpError ack.status_code ack.body
    ∧ command_get_sensor_state ack2
        = EndpointResult.httpError ack2.status_code ack2.body := by
  constructor
  · simp [get_available_sensors, h1]
  · simp [command_get_sensor_state, h2]

/-- C6 witness: a 503 acknowledgement to the available-sensors command and
a 500 acknowledgement to the GET sensor state command are surfaced with
those exact status codes and bodies. -/
theorem unexpected_status_propagated_witness :
    get_available_sensors (⟨503, "unavailable"⟩ : HttpResponse String)
        = EndpointResult.httpError 503 "unavailable"
    ∧ command_get_sensor_state
        (⟨500, [("detail", "boom")]⟩ : HttpResponse (JsonObject String))
        = EndpointResult.httpError 500 [("detail", "boom")] :=
  unexpected_status_propagated _ _ (by decide) (by decide)

/-- C10: when the acknowledgement to a GET-style sensor command carries
the expected 202 status but its JSON body has no "command_uuids" field,
each of the three GET endpoints still succeeds, answering its
confirmation message with a null (`none`) command_uuids value instead of
raising an error. -/
theorem get_command_missing_uuids_null {α : Type}
    (body : JsonObject α) (h : jsonGet body "command_uuids" = none) :
    command_get_sensor_state (⟨202, body⟩ : HttpResponse (JsonObject α))
        = EndpointResult.ok
            ⟨"GET Sensor State Command Sent to Gateway API", none⟩
    ∧ command_get_inference_layer (⟨202, body⟩ : HttpResponse (JsonObject α))
        = EndpointResult.ok
            ⟨"GET Inference Layer Command Sent to Gateway API", none⟩
    ∧ command_get_sensor_config (⟨202, body⟩ : HttpResponse (JsonObject α))
        = EndpointResult.ok
            ⟨"GET Sensor Configuration Command Sent to Gateway API", none⟩ := by
  refine ⟨?_, ?_, ?_⟩ <;>
    simp [command_get_sensor_state, command_get_inference_layer,
      command_get_sensor_config, h]

/-- C10 witness: a 202 acknowledgement with an empty JSON object body
yields success with a null command_uuids on all three GET endpoints. -/
theorem get_command_missing_uuids_null_witness :
    command_get_sensor_state
        (⟨202, []⟩ : HttpResponse (JsonObject String))
        = EndpointResult.ok
            ⟨"GET Sensor State Command Sent to Gateway API", none⟩
    ∧ command_get_inference_layer
        (⟨202, []⟩ : HttpResponse (JsonObject String))
        = EndpointResult.ok
            ⟨"GET Inference Layer Command Sent to Gateway API", none⟩
    ∧ command_get_sensor_config
        (⟨202, []⟩ : HttpResponse (JsonObject String))
        = EndpointResult.ok
            ⟨"GET Sensor Configuration Command Sent to Gateway API", none⟩ :=
  get_command_missing_uuids_null [] rfl
